import Mathlib

/-!
Verification development for the AMFbot media-generation suite
(`src/modules/media-gen`): a shallow embedding of the job coordinator
(`api/server.py`), the Flux image backend (`image/flux_wrapper.py`), the
LTX video backend (`video/ltx_wrapper.py`) and the model download manager
(`downloader.py`), together with theorems settling the specification's
claims about them.

Conventions of the embedding:
* Python strings are Lean `String`s; filesystem paths handled by the
  downloader are lists of path components (`List String`), since the code
  only ever builds them with `Path./`.
* Python `float` literals appearing in the code (`0.0`, `3.5`, `8.5`, …)
  are exactly representable, and the only operations applied to them are
  comparison, `max` and division by powers of two times integers at the
  concrete points we evaluate, so they are modelled as rationals.
* A Python function that can raise is modelled with `Except String`;
  the carried string is the exception text where the claims mention it.
* Black-box collaborators (the diffusion pipelines, `snapshot_download`)
  are parameters of the functions that invoke them.
-/

namespace AMFbot

/-! ### downloader.py : data model -/

/-- `ModelInfo` dataclass (`downloader.py` lines 30-40). -/
structure ModelInfo where
  id : String
  name : String
  repo_id : String
  type : String
  size_gb : ℚ
  description : String
  required_vram_gb : ℚ
deriving DecidableEq, Repr

/-- `AVAILABLE_MODELS` (`downloader.py` lines 44-81). -/
def AVAILABLE_MODELS : List ModelInfo :=
  [ { id := "ltx-video-distilled"
    , name := "LTX-Video 0.9.8 (Distilled)"
    , repo_id := "Lightricks/LTX-Video-0.9.8-distilled"
    , type := "video"
    , size_gb := 85/10
    , description := "Fast video generation, optimized for consumer GPUs"
    , required_vram_gb := 8 }
  , { id := "ltx-video-full"
    , name := "LTX-Video 13B"
    , repo_id := "Lightricks/LTX-Video"
    , type := "video"
    , size_gb := 26
    , description := "Full quality video generation model"
    , required_vram_gb := 16 }
  , { id := "flux-schnell"
    , name := "Flux.1 Schnell"
    , repo_id := "black-forest-labs/FLUX.1-schnell"
    , type := "image"
    , size_gb := 12
    , description := "Ultra-fast image generation (4 steps)"
    , required_vram_gb := 6 }
  , { id := "flux-dev"
    , name := "Flux.1 Dev"
    , repo_id := "black-forest-labs/FLUX.1-dev"
    , type := "image"
    , size_gb := 24
    , description := "High quality image generation"
    , required_vram_gb := 12 } ]

/-- `DownloadProgress` dataclass (`downloader.py` lines 84-93).
Byte counts are the integers the progress callback supplies. -/
structure DownloadProgress where
  model_id : String
  total_bytes : ℤ
  downloaded_bytes : ℤ
  current_file : String
  files_completed : ℤ
  files_total : ℤ
deriving DecidableEq, Repr

/-- `DownloadProgress.percentage` (`downloader.py` lines 95-99):
`0.0` when `total_bytes == 0`, else `downloaded_bytes / total_bytes * 100`. -/
def DownloadProgress.percentage (p : DownloadProgress) : ℚ :=
  if p.total_bytes = 0 then 0
  else ((p.downloaded_bytes : ℚ) / (p.total_bytes : ℚ)) * 100

/-! ### downloader.py : filesystem model

The downloader touches the filesystem through `Path.mkdir`,
`Path.exists`, `Path.write_text` and `shutil.rmtree`.  A filesystem
state is a finite list of directories plus a finite association of file
paths to text contents; paths are component lists, `Path./` is `++`. -/

/-- Filesystem state: existing directories and files-with-contents. -/
structure FS where
  dirs : List (List String)
  files : List (List String × String)
deriving DecidableEq, Repr

/-- Content of the file at `p`, if it exists (first binding wins, as in a map). -/
def FS.fileContent (fs : FS) (p : List String) : Option String :=
  (fs.files.find? (fun e => e.1 = p)).map (fun e => e.2)

/-- `Path.exists()` on a file path. -/
def FS.fileExists (fs : FS) (p : List String) : Bool :=
  (fs.fileContent p).isSome

/-- `Path.exists()` on a directory path. -/
def FS.dirExists (fs : FS) (p : List String) : Bool :=
  fs.dirs.contains p

/-- `p.mkdir(parents=True, exist_ok=True)` (only the directory itself is
tracked; the claims never inspect intermediate parents). -/
def FS.mkdirParents (fs : FS) (p : List String) : FS :=
  { fs with dirs := p :: fs.dirs }

/-- `p.write_text(content)`: create or overwrite the file at `p`. -/
def FS.writeFile (fs : FS) (p : List String) (content : String) : FS :=
  { fs with files := (p, content) :: fs.files.filter (fun e => e.1 ≠ p) }

/-- `shutil.rmtree(d)`: remove the directory `d` and everything below it. -/
def FS.rmtree (fs : FS) (d : List String) : FS :=
  { dirs := fs.dirs.filter (fun p => ¬ d.isPrefixOf p)
  , files := fs.files.filter (fun e => ¬ d.isPrefixOf e.1) }

/-! ### downloader.py : ModelDownloader -/

/-- The `ModelDownloader` configuration: its `models_dir`
(`downloader.py` lines 105-121; the executor and `_active_downloads`
bookkeeping do not affect any claim). -/
structure ModelDownloader where
  models_dir : List String
deriving DecidableEq, Repr

/-- `ModelDownloader.get_model_info` (`downloader.py` lines 127-132):
first catalog entry with the given id, else `None`. -/
def ModelDownloader.get_model_info (model_id : String) : Option ModelInfo :=
  AVAILABLE_MODELS.find? (fun m => m.id = model_id)

/-- `self.models_dir / model.type / model_id` as built in
`is_downloaded`, `download_model` and `cleanup`. -/
def ModelDownloader.modelDir (d : ModelDownloader) (m : ModelInfo) : List String :=
  d.models_dir ++ [m.type, m.id]

/-- `model_dir / ".download_complete"`, the completion marker path. -/
def ModelDownloader.markerPath (d : ModelDownloader) (m : ModelInfo) : List String :=
  d.modelDir m ++ [".download_complete"]

/-- `ModelDownloader.is_downloaded` (`downloader.py` lines 134-144):
false for an id outside the catalog, else true iff the
`.download_complete` marker file exists in the model's directory. -/
def ModelDownloader.is_downloaded (d : ModelDownloader) (fs : FS) (model_id : String) : Bool :=
  match ModelDownloader.get_model_info model_id with
  | none => false
  | some m => fs.fileExists (d.markerPath m)

/-- `ModelDownloader.download_model` (`downloader.py` lines 146-209).
The transfer (`_download_sync`, a thin wrapper around the black-box
`snapshot_download`) is a parameter: it receives the filesystem after
`mkdir` and returns the filesystem it produced together with success or
the text of the exception it raised.  The result pairs the final
filesystem with either the model directory path or the text of the
exception that propagated:
* unknown id: `ValueError` before anything touches the disk;
* marker present and not `force`: early return, transfer never invoked;
* otherwise: `mkdir`, run the transfer, and only when it succeeds write
  the marker (content `model.repo_id`) before returning the path. -/
def ModelDownloader.download_model (d : ModelDownloader) (fs : FS) (model_id : String)
    (force : Bool) (transfer : FS → FS × Except String Unit) :
    FS × Except String (List String) :=
  match ModelDownloader.get_model_info model_id with
  | none => (fs, .error ("Unknown model: " ++ model_id))
  | some m =>
    if d.is_downloaded fs model_id && !force then
      (fs, .ok (d.modelDir m))
    else
      let fs1 := fs.mkdirParents (d.modelDir m)
      match transfer fs1 with
      | (fs2, .error e) => (fs2, .error e)
      | (fs2, .ok _) =>
        (fs2.writeFile (d.markerPath m) m.repo_id, .ok (d.modelDir m))

/-- `ModelDownloader.cleanup` (`downloader.py` lines 309-323): `False`
and no filesystem change for an unknown id or a missing model directory,
else `shutil.rmtree` of the model directory and `True`. -/
def ModelDownloader.cleanup (d : ModelDownloader) (fs : FS) (model_id : String) :
    FS × Bool :=
  match ModelDownloader.get_model_info model_id with
  | none => (fs, false)
  | some m =>
    if fs.dirExists (d.modelDir m) then (fs.rmtree (d.modelDir m), true)
    else (fs, false)

/-! ### Python string helpers shared by the wrappers -/

/-- Fuel-indexed decimal digit accumulation; with fuel at least `n` it
yields the decimal digits of `n`, most significant first.  Structural in
the fuel so that concrete values reduce inside the kernel. -/
def natDecimalDigitsGo : Nat → Nat → List Char
  | 0, n => [Nat.digitChar n]
  | fuel + 1, n =>
    if n < 10 then [Nat.digitChar n]
    else natDecimalDigitsGo fuel (n / 10) ++ [Nat.digitChar (n % 10)]

/-- Decimal digit list of a natural number: the characters Python's
`str(i)` produces for a non-negative `int`. -/
def natDecimalDigits (n : Nat) : List Char :=
  natDecimalDigitsGo n n

/-- Python `str(i)` for a non-negative `int`. -/
def natStr (n : Nat) : String :=
  ⟨natDecimalDigits n⟩

/-- Python `str(i)` for an `int`. -/
def intStr (i : Int) : String :=
  if i < 0 then "-" ++ natStr i.natAbs else natStr i.natAbs

/-- Python `x or default` on an optional string: `None` and the empty
string are falsy. -/
def orElseStr (o : Option String) (default : String) : String :=
  match o with
  | none => default
  | some s => if s = "" then default else s

/-- Python `str.rfind` on a character list: index of the last
occurrence, `none` when absent (`-1` in Python). -/
def rfindIdx : List Char → Char → Option Nat
  | [], _ => none
  | a :: as, c =>
    match rfindIdx as c with
    | some i => some (i + 1)
    | none => if a = c then some 0 else none

/-- Index where the basename of `p` starts: one past the last `/`, or
`0` when there is none (`sepIndex + 1` in CPython, with `-1` for a
missing separator). -/
def splitextStart (p : String) : Nat :=
  match rfindIdx p.data '/' with
  | none => 0
  | some k => k + 1

/-- `os.path.splitext` for POSIX paths (CPython `genericpath._splitext`
with `sep='/'`, no altsep, `extsep='.'`): split at the last dot provided
it lies inside the basename and the basename does not consist solely of
leading dots up to it; otherwise the extension is empty. -/
def splitext (p : String) : String × String :=
  match rfindIdx p.data '.' with
  | none => (p, "")
  | some d =>
    if splitextStart p ≤ d then
      if ((p.data.drop (splitextStart p)).take (d - splitextStart p)).any (fun c => c ≠ '.') then
        (⟨p.data.take d⟩, ⟨p.data.drop d⟩)
      else (p, "")
    else (p, "")

/-- Python list repr for a list of strings, as f-string interpolation of
`list(FLUX_MODELS.keys())` renders it. -/
def pyStrList (l : List String) : String :=
  "[" ++ String.intercalate ", " (l.map (fun s => "'" ++ s ++ "'")) ++ "]"

/-! ### image/flux_wrapper.py -/

/-- `FLUX_MODELS` (`flux_wrapper.py` lines 26-29): variant name to
HuggingFace repo id. -/
def FLUX_MODELS : List (String × String) :=
  [ ("schnell", "black-forest-labs/FLUX.1-schnell")
  , ("dev", "black-forest-labs/FLUX.1-dev") ]

/-- `ImageGenerationConfig` dataclass (`flux_wrapper.py` lines 34-46). -/
structure ImageGenerationConfig where
  prompt : String
  negative_prompt : String := ""
  width : Nat := 1024
  height : Nat := 1024
  num_inference_steps : Nat := 4
  guidance_scale : ℚ := 0
  seed : Option Int := none
  output_path : Option String := none
  num_images : Nat := 1
deriving DecidableEq, Repr

/-- The `FluxWrapper` fields the claims depend on (`flux_wrapper.py`
lines 52-79; device and dtype detection touch no claim). -/
structure FluxWrapper where
  model_variant : String
  model_id : String
deriving DecidableEq, Repr

/-- `FluxWrapper.__init__` (`flux_wrapper.py` lines 52-79): raises
`ValueError` naming the valid choices when the variant is not a key of
`FLUX_MODELS`, otherwise constructs the wrapper. -/
def FluxWrapper.init (model_variant : String) : Except String FluxWrapper :=
  match FLUX_MODELS.find? (fun e => e.1 = model_variant) with
  | none =>
    .error ("Unknown model variant: " ++ model_variant ++ ". Choose from: "
      ++ pyStrList (FLUX_MODELS.map (fun e => e.1)))
  | some e => .ok { model_variant := model_variant, model_id := e.2 }

/-- The argument record `FluxWrapper.generate_image` passes to the
diffusion pipeline (`flux_wrapper.py` lines 166-174). -/
structure PipelineCall where
  prompt : String
  width : Nat
  height : Nat
  num_inference_steps : Nat
  guidance_scale : ℚ
  seed : Option Int
  num_images_per_prompt : Nat
deriving DecidableEq, Repr

/-- Effective step count after the variant policy overrides
(`flux_wrapper.py` lines 152-163). -/
def FluxWrapper.effectiveSteps (w : FluxWrapper) (cfg : ImageGenerationConfig) : Nat :=
  if w.model_variant = "schnell" then min cfg.num_inference_steps 4
  else if w.model_variant = "dev" then max cfg.num_inference_steps 20
  else cfg.num_inference_steps

/-- Effective guidance scale after the variant policy overrides
(`flux_wrapper.py` lines 152-163). -/
def FluxWrapper.effectiveGuidance (w : FluxWrapper) (cfg : ImageGenerationConfig) : ℚ :=
  if w.model_variant = "schnell" then 0
  else if w.model_variant = "dev" then max cfg.guidance_scale (7/2)
  else cfg.guidance_scale

/-- The pipeline invocation `generate_image` performs
(`flux_wrapper.py` lines 166-174). -/
def FluxWrapper.pipelineCall (w : FluxWrapper) (cfg : ImageGenerationConfig) : PipelineCall :=
  { prompt := cfg.prompt
  , width := cfg.width
  , height := cfg.height
  , num_inference_steps := w.effectiveSteps cfg
  , guidance_scale := w.effectiveGuidance cfg
  , seed := cfg.seed
  , num_images_per_prompt := cfg.num_images }

/-- `config.seed or 'random'` rendered into the default filename
(`flux_wrapper.py` lines 180-182): seed `None` or `0` is falsy. -/
def seedStr (seed : Option Int) : String :=
  match seed with
  | none => "random"
  | some s => if s = 0 then "random" else intStr s

/-- Python `ext or '.png'` (`flux_wrapper.py` line 184). -/
def extOrPng (ext : String) : String :=
  if ext = "" then ".png" else ext

/-- The path the `i`-th generated image is saved to
(`flux_wrapper.py` lines 177-188): the configured output path itself
when exactly one image was requested, otherwise the base path with
`_i` spliced in before the extension. -/
def ImageGenerationConfig.outputPathFor (cfg : ImageGenerationConfig) (i : Nat) : String :=
  if cfg.num_images = 1 then
    orElseStr cfg.output_path ("output_" ++ seedStr cfg.seed ++ ".png")
  else
    let base := orElseStr cfg.output_path ("output_" ++ seedStr cfg.seed)
    let ne := splitext base
    ne.1 ++ "_" ++ natStr i ++ extOrPng ne.2

/-- `FluxWrapper.generate_image` (`flux_wrapper.py` lines 133-190),
with the pipeline as a black box that yields exactly
`num_images_per_prompt` images: the returned pair records the pipeline
invocation made and the Python return value — a single path
(`output_paths[0]`) when `num_images == 1`, else the list of saved
paths.  `none` models the `IndexError` of `output_paths[0]` on an empty
list, which no in-bounds request reaches. -/
def FluxWrapper.generate_image (w : FluxWrapper) (cfg : ImageGenerationConfig) :
    PipelineCall × Option (String ⊕ List String) :=
  ( w.pipelineCall cfg
  , if cfg.num_images = 1 then
      (((List.range cfg.num_images).map cfg.outputPathFor).head?).map Sum.inl
    else
      some (Sum.inr ((List.range cfg.num_images).map cfg.outputPathFor)) )

/-! ### video/ltx_wrapper.py -/

/-- `DISTILLED_MODEL` (`ltx_wrapper.py` line 28), the constructor's
default `model_id`. -/
def DISTILLED_MODEL : String := "Lightricks/LTX-Video-0.9.8-distilled"

/-- The `LTXVideoWrapper` field the claims depend on (`ltx_wrapper.py`
lines 59-83). -/
structure LTXVideoWrapper where
  model_id : String
deriving DecidableEq, Repr

/-- `LTXVideoWrapper.__init__` (`ltx_wrapper.py` lines 59-83): the body
only stores its arguments and detects device/dtype — it validates
nothing and raises nothing, so construction succeeds for every
`model_id`. -/
def LTXVideoWrapper.init (model_id : String) : Except String LTXVideoWrapper :=
  .ok { model_id := model_id }

/-! ### api/server.py : job data model -/

/-- The four job states of `JobResponse.status` (`server.py` line 110). -/
inductive JobStatus
  | pending
  | processing
  | completed
  | failed
deriving DecidableEq, Repr

/-- The string stored in the `status` field of a job dict. -/
def JobStatus.toStr : JobStatus → String
  | .pending => "pending"
  | .processing => "processing"
  | .completed => "completed"
  | .failed => "failed"

/-- One entry of `state.jobs`: a Python dict with a `status` key and
optional `result`/`error` keys (absent keys are `none`). -/
structure Job where
  status : JobStatus
  result : Option String := none
  error : Option String := none
deriving DecidableEq, Repr

/-- The terminal record a finished work item stores
(`server.py` lines 186-193 and 244-248): on a backend return value it
writes `{"status": "completed", "result": result if isinstance(result,
str) else result[0]}`; on an exception it writes `{"status": "failed",
"error": str(e)}`.  `result[0]` on an empty list raises `IndexError`
inside the `try`, which the handler turns into the failed record. -/
def finishJob : Except String (String ⊕ List String) → Job
  | .error e => { status := .failed, error := some e }
  | .ok (.inl s) => { status := .completed, result := some s }
  | .ok (.inr l) =>
    match l.head? with
    | some p => { status := .completed, result := some p }
    | none => { status := .failed, error := some "list index out of range" }

/-- Progress of one background work item: scheduled by the endpoint,
running after it has set `processing`, done after it stored the
terminal record. -/
inductive Phase
  | scheduled
  | running
  | done
deriving DecidableEq, Repr

/-- A job-table entry together with its work item's progress. -/
structure Entry where
  job : Job
  phase : Phase
deriving DecidableEq, Repr

/-- The `state.jobs` dict paired with per-job work-item progress. -/
abbrev JobTable := List (String × Entry)

/-- Dict lookup `state.jobs[job_id]` (first binding wins). -/
def lookupEntry : JobTable → String → Option Entry
  | [], _ => none
  | p :: rest, id => if p.1 = id then some p.2 else lookupEntry rest id

/-- Dict update `state.jobs[job_id] = e` on an existing key. -/
def setEntry : JobTable → String → Entry → JobTable
  | [], _, _ => []
  | p :: rest, id, e => if p.1 = id then (id, e) :: rest else p :: setEntry rest id e

/-- The three mutations `server.py` ever performs on `state.jobs`:

* `submit`: an accepted `POST /api/generate/...` inserts
  `{"status": "pending"}` under a fresh `uuid4` id and schedules the
  work item (`server.py` lines 148-151 and 208-211); freshness models
  `uuid.uuid4()` uniqueness;
* `beginWork`: the scheduled work item starts and first sets
  `jobs[job_id]["status"] = "processing"` (lines 159 and 219);
* `finishWork`: the backend call returns or raises and the work item
  stores the terminal record (lines 186-193 and 244-248). -/
inductive Step : JobTable → JobTable → Prop
  | submit (t : JobTable) (id : String) (h : lookupEntry t id = none) :
      Step t ((id, ⟨{ status := .pending }, .scheduled⟩) :: t)
  | beginWork (t : JobTable) (id : String) (e : Entry)
      (h : lookupEntry t id = some e) (hp : e.phase = .scheduled) :
      Step t (setEntry t id ⟨{ e.job with status := .processing }, .running⟩)
  | finishWork (t : JobTable) (id : String) (e : Entry)
      (outcome : Except String (String ⊕ List String))
      (h : lookupEntry t id = some e) (hp : e.phase = .running) :
      Step t (setEntry t id ⟨finishJob outcome, .done⟩)

/-- Job tables reachable from the empty `state.jobs` the server starts
with. -/
inductive Reachable : JobTable → Prop
  | init : Reachable []
  | step {t t' : JobTable} : Reachable t → Step t t' → Reachable t'

/-- Zero or more server steps. -/
inductive Steps : JobTable → JobTable → Prop
  | refl (t : JobTable) : Steps t t
  | tail {t t' t'' : JobTable} : Steps t t' → Step t' t'' → Steps t t''

/-- Shape invariant tying a job record to its work item's progress:
scheduled jobs are exactly the pending record with no result/error,
running jobs the processing record, and done jobs carry exactly one
terminal state. -/
def entryOk (e : Entry) : Prop :=
  match e.phase with
  | .scheduled => e.job = { status := .pending }
  | .running => e.job = { status := .processing }
  | .done =>
    (∃ p, e.job = { status := .completed, result := some p }) ∨
    (∃ m, e.job = { status := .failed, error := some m })

/-- Every entry of the table satisfies the shape invariant. -/
def tableOk (t : JobTable) : Prop :=
  ∀ id e, lookupEntry t id = some e → entryOk e

/-- The status transitions `state.jobs` can exhibit. -/
def allowedTransition : JobStatus → JobStatus → Prop
  | .pending, .processing => True
  | .processing, .completed => True
  | .processing, .failed => True
  | _, _ => False

/-! ### api/server.py : result-download endpoint -/

/-- An `HTTPException(status_code, detail)`. -/
structure HttpErr where
  status_code : Nat
  detail : String
deriving DecidableEq, Repr

/-- Dict lookup on the plain jobs view (ignoring work-item progress). -/
def lookupJob : List (String × Job) → String → Option Job
  | [], _ => none
  | p :: rest, id => if p.1 = id then some p.2 else lookupJob rest id

/-- `download_result` (`server.py` lines 266-286), with the disk
modelled by the predicate `fileOnDisk`: 404 for an unknown job id, then
400 quoting the job's current status when it is not `completed`, then
404 when the recorded file no longer exists, else the recorded path
(streamed as the `FileResponse`).  The 500 branch models the `KeyError`
of `job["result"]` on a completed job without a result key, which the
coordinator never produces. -/
def download_result (jobs : List (String × Job)) (fileOnDisk : String → Bool)
    (job_id : String) : Except HttpErr String :=
  match lookupJob jobs job_id with
  | none => .error ⟨404, "Job not found"⟩
  | some job =>
    if job.status ≠ .completed then
      .error ⟨400, "Job status: " ++ job.status.toStr⟩
    else
      match job.result with
      | none => .error ⟨500, "KeyError: 'result'"⟩
      | some rpath =>
        if fileOnDisk rpath then .ok rpath
        else .error ⟨404, "Generated file not found"⟩

/-- Decimal decoding, the proof-side inverse of `natDecimalDigits`. -/
def decodeDecimal (l : List Char) : Nat :=
  l.foldl (fun acc c => acc * 10 + (c.toNat - 48)) 0

/-! ## Theorems -/

/-! ### Filesystem and list helper lemmas -/

theorem fileContent_writeFile_self (fs : FS) (p : List String) (c : String) :
    (fs.writeFile p c).fileContent p = some c := by
  simp [FS.writeFile, FS.fileContent, List.find?_cons]

theorem find?_filter_none {α : Type} (l : List α) (p q : α → Bool)
    (h : ∀ x, q x = true → p x = false) : (l.filter p).find? q = none := by
  induction l with
  | nil => rfl
  | cons a as ih =>
    by_cases hp : p a = true
    · rw [List.filter_cons_of_pos hp, List.find?_cons]
      have hq : q a = false := by
        cases hqa : q a
        · rfl
        · exact absurd (h a hqa) (by simp [hp])
      rw [hq]
      exact ih
    · rw [List.filter_cons_of_neg (by simpa using hp)]
      exact ih

theorem isPrefixOf_append_self (l l' : List String) : l.isPrefixOf (l ++ l') = true := by
  rw [List.isPrefixOf_iff_prefix]
  exact List.prefix_append l l'

/-- After `rmtree` of a model's directory its completion marker is gone,
so `is_downloaded` is false. -/
theorem is_downloaded_rmtree (d : ModelDownloader) (fs : FS) (model_id : String)
    (m : ModelInfo) (hm : ModelDownloader.get_model_info model_id = some m) :
    d.is_downloaded (fs.rmtree (d.modelDir m)) model_id = false := by
  unfold ModelDownloader.is_downloaded
  rw [hm]
  have : (fs.rmtree (d.modelDir m)).fileContent (d.markerPath m) = none := by
    unfold FS.rmtree FS.fileContent
    rw [find?_filter_none]
    · rfl
    · intro x hx
      have hx' : x.1 = d.markerPath m := by simpa using hx
      simp [hx', ModelDownloader.markerPath, isPrefixOf_append_self]
  simp [FS.fileExists, this]

/-- C9 counterexample: for one downloaded byte out of two total bytes the
code's derived percentage is `50`, not the claimed quotient `1/2 = 0.5`
of downloaded bytes by total bytes. -/
theorem c9_counterexample :
    DownloadProgress.percentage ⟨"m", 2, 1, "", 0, 1⟩ ≠ (1 : ℚ) / 2 ∧
    DownloadProgress.percentage ⟨"m", 2, 1, "", 0, 1⟩ = 50 := by
  constructor <;> norm_num [DownloadProgress.percentage]

/-- C9 (amended): for every `DownloadProgress` the derived percentage is
`0` when the total byte count is `0` — so the computation never divides
by zero — and otherwise equals downloaded bytes divided by total bytes,
times one hundred. -/
theorem c9_percentage (p : DownloadProgress) :
    (p.total_bytes = 0 → p.percentage = 0) ∧
    (p.total_bytes ≠ 0 →
      p.percentage = ((p.downloaded_bytes : ℚ) / (p.total_bytes : ℚ)) * 100) := by
  refine ⟨fun h => ?_, fun h => ?_⟩ <;> simp [DownloadProgress.percentage, h]

/-- Witness for `c9_percentage` at total bytes `0` and at `4` total,
`1` downloaded. -/
theorem c9_percentage_witness :
    DownloadProgress.percentage ⟨"m", 0, 5, "", 0, 1⟩ = 0 ∧
    DownloadProgress.percentage ⟨"m", 4, 1, "", 0, 1⟩ = 25 := by
  refine ⟨(c9_percentage ⟨"m", 0, 5, "", 0, 1⟩).1 rfl, ?_⟩
  have h := (c9_percentage ⟨"m", 4, 1, "", 0, 1⟩).2 (by norm_num)
  rw [h]; norm_num

/-- C8 counterexample: `LTXVideoWrapper.__init__` performs no validation
of its model identifier, so constructing the video backend with an
identifier outside any known set succeeds and yields an instance rather
than failing with an invalid-input error. -/
theorem c8_counterexample :
    LTXVideoWrapper.init "not-a-real-model" = .ok { model_id := "not-a-real-model" } :=
  rfl

/-- C8 (amended): the image backend rejects unknown variants at
construction time with a `ValueError` enumerating the valid choices and
constructs a wrapper for the known variants, while the video backend's
constructor accepts every identifier without validation. -/
theorem c8_construction_validation :
    (∀ v, FLUX_MODELS.find? (fun e => e.1 = v) = none →
      FluxWrapper.init v
        = .error ("Unknown model variant: " ++ v ++ ". Choose from: " ++ "['schnell', 'dev']")) ∧
    FluxWrapper.init "schnell"
      = .ok { model_variant := "schnell", model_id := "black-forest-labs/FLUX.1-schnell" } ∧
    FluxWrapper.init "dev"
      = .ok { model_variant := "dev", model_id := "black-forest-labs/FLUX.1-dev" } ∧
    (∀ mid, LTXVideoWrapper.init mid = .ok { model_id := mid }) := by
  refine ⟨fun v h => ?_, rfl, rfl, fun mid => rfl⟩
  unfold FluxWrapper.init
  rw [h]
  rfl

/-- Witness for `c8_construction_validation` at the unknown variant
`"bogus"`. -/
theorem c8_construction_validation_witness :
    FluxWrapper.init "bogus"
      = .error ("Unknown model variant: " ++ "bogus" ++ ". Choose from: " ++ "['schnell', 'dev']") :=
  c8_construction_validation.1 "bogus" rfl

/-- C6: the pipeline invocation made by `generate_image` carries the
variant-specific overrides — for `schnell` the step count is clamped to
at most `4` and the guidance weight forced to `0`, for `dev` the step
count is raised to at least `20` and the guidance weight to at least
`3.5 = 7/2`. -/
theorem c6_variant_overrides (w : FluxWrapper) (cfg : ImageGenerationConfig) :
    (w.model_variant = "schnell" →
      (w.pipelineCall cfg).num_inference_steps = min cfg.num_inference_steps 4 ∧
      (w.pipelineCall cfg).guidance_scale = 0) ∧
    (w.model_variant = "dev" →
      (w.pipelineCall cfg).num_inference_steps = max cfg.num_inference_steps 20 ∧
      (w.pipelineCall cfg).guidance_scale = max cfg.guidance_scale (7/2)) := by
  constructor <;> intro h <;>
    simp [FluxWrapper.pipelineCall, FluxWrapper.effectiveSteps, FluxWrapper.effectiveGuidance, h]

/-- Witness for `c6_variant_overrides` on both variants at a concrete
configuration (requested: 50 steps, guidance 2). -/
theorem c6_variant_overrides_witness :
    (FluxWrapper.pipelineCall ⟨"schnell", "s"⟩
       { prompt := "p", num_inference_steps := 50, guidance_scale := 2 }).num_inference_steps = 4 ∧
    (FluxWrapper.pipelineCall ⟨"schnell", "s"⟩
       { prompt := "p", num_inference_steps := 50, guidance_scale := 2 }).guidance_scale = 0 ∧
    (FluxWrapper.pipelineCall ⟨"dev", "d"⟩
       { prompt := "p", num_inference_steps := 50, guidance_scale := 2 }).num_inference_steps = 50 ∧
    (FluxWrapper.pipelineCall ⟨"dev", "d"⟩
       { prompt := "p", num_inference_steps := 50, guidance_scale := 2 }).guidance_scale = 7/2 := by
  have hs := (c6_variant_overrides ⟨"schnell", "s"⟩
    { prompt := "p", num_inference_steps := 50, guidance_scale := 2 }).1 rfl
  have hd := (c6_variant_overrides ⟨"dev", "d"⟩
    { prompt := "p", num_inference_steps := 50, guidance_scale := 2 }).2 rfl
  refine ⟨hs.1.trans (by norm_num), hs.2, hd.1.trans (by norm_num), hd.2.trans (by norm_num)⟩

/-- C3: the result-download endpoint checks, in order: unknown job id
gives 404 "Job not found"; a known job that is not `completed` gives 400
quoting the job's current status (never the missing-file 404); a
completed job whose recorded file is gone gives 404 "Generated file not
found"; otherwise the recorded path is returned. -/
theorem c3_download_checks (jobs : List (String × Job)) (fileOnDisk : String → Bool)
    (id : String) :
    (lookupJob jobs id = none →
      download_result jobs fileOnDisk id = .error ⟨404, "Job not found"⟩) ∧
    (∀ job, lookupJob jobs id = some job → job.status ≠ .completed →
      download_result jobs fileOnDisk id
        = .error ⟨400, "Job status: " ++ job.status.toStr⟩) ∧
    (∀ job p, lookupJob jobs id = some job → job.status = .completed → job.result = some p →
      (fileOnDisk p = false →
        download_result jobs fileOnDisk id = .error ⟨404, "Generated file not found"⟩) ∧
      (fileOnDisk p = true → download_result jobs fileOnDisk id = .ok p)) := by
  refine ⟨fun h => ?_, fun job hj hs => ?_, fun job p hj hs hr => ⟨fun hf => ?_, fun hf => ?_⟩⟩
  · simp [download_result, h]
  · simp [download_result, hj, hs]
  · simp [download_result, hj, hs, hr, hf]
  · simp [download_result, hj, hs, hr, hf]

/-- Witness for `c3_download_checks`: a two-job table exercising the
not-found, not-completed, file-missing and success branches. -/
theorem c3_download_checks_witness :
    download_result [("a", { status := .processing }),
        ("b", { status := .completed, result := some "f.png" })] (fun _ => false) "zz"
      = .error ⟨404, "Job not found"⟩ ∧
    download_result [("a", { status := .processing }),
        ("b", { status := .completed, result := some "f.png" })] (fun _ => false) "a"
      = .error ⟨400, "Job status: " ++ JobStatus.toStr .processing⟩ ∧
    download_result [("a", { status := .processing }),
        ("b", { status := .completed, result := some "f.png" })] (fun _ => false) "b"
      = .error ⟨404, "Generated file not found"⟩ ∧
    download_result [("a", { status := .processing }),
        ("b", { status := .completed, result := some "f.png" })] (fun _ => true) "b"
      = .ok "f.png" := by
  refine ⟨(c3_download_checks _ _ _).1 rfl,
    (c3_download_checks _ _ _).2.1 { status := .processing } rfl (by decide),
    ((c3_download_checks _ _ _).2.2 { status := .completed, result := some "f.png" }
      "f.png" (by rfl) rfl rfl).1 rfl,
    ((c3_download_checks _ _ _).2.2 { status := .completed, result := some "f.png" }
      "f.png" (by rfl) rfl rfl).2 rfl⟩

/-- C4: `is_downloaded` is true exactly when the id is in the catalog
and the `.download_complete` marker exists in the model's directory
(partial files without the marker leave it false, since only the marker
is consulted), and `download_model` with `force = false` returns the
existing directory immediately — for every possible transfer, i.e.
without performing one — exactly when `is_downloaded` holds. -/
theorem c4_marker_is_sole_truth (d : ModelDownloader) (fs : FS) (model_id : String) :
    (d.is_downloaded fs model_id = true ↔
      ∃ m, ModelDownloader.get_model_info model_id = some m ∧
        fs.fileExists (d.markerPath m) = true) ∧
    (∀ m, ModelDownloader.get_model_info model_id = some m →
      ((∀ transfer, d.download_model fs model_id false transfer = (fs, .ok (d.modelDir m))) ↔
        d.is_downloaded fs model_id = true)) := by
  constructor
  · unfold ModelDownloader.is_downloaded
    cases hm : ModelDownloader.get_model_info model_id <;> simp [hm]
  · intro m hm
    constructor
    · intro hall
      by_contra hnd
      rw [Bool.not_eq_true] at hnd
      have h1 := hall (fun f => (f, .error "transfer failed"))
      unfold ModelDownloader.download_model at h1
      rw [hm] at h1
      simp [hnd] at h1
    · intro hd transfer
      unfold ModelDownloader.download_model
      rw [hm]
      simp [hd]

/-- Witness for `c4_marker_is_sole_truth`: with the marker on disk,
`is_downloaded` is true and `download_model` short-circuits to the model
directory even under a transfer that would fail. -/
theorem c4_marker_is_sole_truth_witness :
    ModelDownloader.is_downloaded ⟨["models"]⟩
      ⟨[], [(["models", "image", "flux-schnell", ".download_complete"], "x")]⟩
      "flux-schnell" = true ∧
    ModelDownloader.download_model ⟨["models"]⟩
      ⟨[], [(["models", "image", "flux-schnell", ".download_complete"], "x")]⟩
      "flux-schnell" false (fun f => (f, .error "network down"))
      = (⟨[], [(["models", "image", "flux-schnell", ".download_complete"], "x")]⟩,
         .ok ["models", "image", "flux-schnell"]) := by
  have hdl : ModelDownloader.is_downloaded ⟨["models"]⟩
      ⟨[], [(["models", "image", "flux-schnell", ".download_complete"], "x")]⟩
      "flux-schnell" = true := by decide
  have h2 := (c4_marker_is_sole_truth ⟨["models"]⟩
    ⟨[], [(["models", "image", "flux-schnell", ".download_complete"], "x")]⟩
    "flux-schnell").2
    { id := "flux-schnell", name := "Flux.1 Schnell"
    , repo_id := "black-forest-labs/FLUX.1-schnell", type := "image"
    , size_gb := 12, description := "Ultra-fast image generation (4 steps)"
    , required_vram_gb := 6 } (by decide)
  exact ⟨hdl, (h2.mpr hdl) (fun f => (f, .error "network down"))⟩

/-- C5: when the marker is absent, `download_model` first creates the
directory and runs the transfer; if the transfer raises, the exception
propagates, no marker is written (so, provided the transfer itself left
no marker behind, `is_downloaded` stays false and a subsequent call runs
the transfer again); if the transfer succeeds, the marker is written
with content `model.repo_id` and `is_downloaded` becomes true. -/
theorem c5_marker_written_only_after_transfer
    (d : ModelDownloader) (fs fs2 : FS) (model_id : String) (m : ModelInfo)
    (transfer : FS → FS × Except String Unit)
    (hm : ModelDownloader.get_model_info model_id = some m)
    (hnd : d.is_downloaded fs model_id = false) :
    (∀ e, transfer (fs.mkdirParents (d.modelDir m)) = (fs2, .error e) →
      d.download_model fs model_id false transfer = (fs2, .error e) ∧
      (fs2.fileExists (d.markerPath m) = false →
        d.is_downloaded fs2 model_id = false ∧
        ∀ transfer2 fs3,
          transfer2 (fs2.mkdirParents (d.modelDir m)) = (fs3, .ok ()) →
          d.download_model fs2 model_id false transfer2
            = (fs3.writeFile (d.markerPath m) m.repo_id, .ok (d.modelDir m)))) ∧
    (transfer (fs.mkdirParents (d.modelDir m)) = (fs2, .ok ()) →
      d.download_model fs model_id false transfer
        = (fs2.writeFile (d.markerPath m) m.repo_id, .ok (d.modelDir m)) ∧
      (fs2.writeFile (d.markerPath m) m.repo_id).fileContent (d.markerPath m)
        = some m.repo_id ∧
      d.is_downloaded (fs2.writeFile (d.markerPath m) m.repo_id) model_id = true) := by
  constructor
  · intro e ht
    constructor
    · unfold ModelDownloader.download_model
      rw [hm]
      simp [hnd, ht]
    · intro hmark
      have hnd2 : d.is_downloaded fs2 model_id = false := by
        unfold ModelDownloader.is_downloaded
        rw [hm]
        exact hmark
      refine ⟨hnd2, fun transfer2 fs3 ht2 => ?_⟩
      unfold ModelDownloader.download_model
      rw [hm]
      simp [hnd2, ht2]
  · intro ht
    refine ⟨?_, fileContent_writeFile_self fs2 (d.markerPath m) m.repo_id, ?_⟩
    · unfold ModelDownloader.download_model
      rw [hm]
      simp [hnd, ht]
    · unfold ModelDownloader.is_downloaded
      rw [hm]
      simp [FS.fileExists, fileContent_writeFile_self]

/-- Witness for `c5_marker_written_only_after_transfer`: on an empty
filesystem a failing transfer propagates its error and leaves
`is_downloaded` false, and a succeeding transfer ends with the marker
containing the repo id. -/
theorem c5_marker_written_only_after_transfer_witness :
    ModelDownloader.download_model ⟨["models"]⟩ ⟨[], []⟩ "flux-dev" false
      (fun f => (f, .error "disk full"))
      = (⟨[["models", "image", "flux-dev"]], []⟩, .error "disk full") ∧
    ModelDownloader.is_downloaded ⟨["models"]⟩ ⟨[["models", "image", "flux-dev"]], []⟩
      "flux-dev" = false ∧
    ModelDownloader.download_model ⟨["models"]⟩ ⟨[], []⟩ "flux-dev" false
      (fun f => (f, .ok ()))
      = (⟨[["models", "image", "flux-dev"]],
          [(["models", "image", "flux-dev", ".download_complete"], "black-forest-labs/FLUX.1-dev")]⟩,
         .ok ["models", "image", "flux-dev"]) := by
  have h := c5_marker_written_only_after_transfer ⟨["models"]⟩ ⟨[], []⟩
    ⟨[["models", "image", "flux-dev"]], []⟩ "flux-dev"
    { id := "flux-dev", name := "Flux.1 Dev"
    , repo_id := "black-forest-labs/FLUX.1-dev", type := "image"
    , size_gb := 24, description := "High quality image generation"
    , required_vram_gb := 12 }
    (fun f => (f, .error "disk full")) (by decide) (by decide)
  have h1 := h.1 "disk full" rfl
  have h2 := c5_marker_written_only_after_transfer ⟨["models"]⟩ ⟨[], []⟩
    ⟨[["models", "image", "flux-dev"]], []⟩ "flux-dev"
    { id := "flux-dev", name := "Flux.1 Dev"
    , repo_id := "black-forest-labs/FLUX.1-dev", type := "image"
    , size_gb := 24, description := "High quality image generation"
    , required_vram_gb := 12 }
    (fun f => (f, .ok ())) (by decide) (by decide)
  exact ⟨h1.1, (h1.2 (by decide)).1, (h2.2 rfl).1⟩

/-- C10: when `cleanup` returns true the whole model directory —
including the completion marker — has been removed, so `is_downloaded`
is false afterwards; for an id outside the catalog, or a model directory
that does not exist, `cleanup` returns false and leaves the filesystem
unchanged. -/
theorem c10_cleanup_removes_marker (d : ModelDownloader) (fs : FS) (model_id : String) :
    (∀ fs', d.cleanup fs model_id = (fs', true) →
      d.is_downloaded fs' model_id = false ∧
      ∃ m, ModelDownloader.get_model_info model_id = some m ∧
        fs.dirExists (d.modelDir m) = true ∧ fs' = fs.rmtree (d.modelDir m)) ∧
    (ModelDownloader.get_model_info model_id = none → d.cleanup fs model_id = (fs, false)) ∧
    (∀ m, ModelDownloader.get_model_info model_id = some m →
      fs.dirExists (d.modelDir m) = false → d.cleanup fs model_id = (fs, false)) := by
  refine ⟨fun fs' h => ?_, fun hm => ?_, fun m hm hdir => ?_⟩
  · rcases hm : ModelDownloader.get_model_info model_id with _ | m
    · unfold ModelDownloader.cleanup at h
      rw [hm] at h
      simp at h
    · unfold ModelDownloader.cleanup at h
      rw [hm] at h
      by_cases hdir : fs.dirExists (d.modelDir m) = true
      · simp only [hdir, if_true] at h
        have hfs' : fs' = fs.rmtree (d.modelDir m) := by
          have := congrArg Prod.fst h
          exact this.symm
        subst hfs'
        exact ⟨is_downloaded_rmtree d fs model_id m hm, m, rfl, hdir, rfl⟩
      · simp only [hdir, if_false] at h
        simp at h
  · unfold ModelDownloader.cleanup
    rw [hm]
  · unfold ModelDownloader.cleanup
    rw [hm]
    simp [hdir]

/-- Witness for `c10_cleanup_removes_marker`: removing a fully
downloaded model leaves `is_downloaded` false, and an unknown id as well
as a missing directory return false unchanged. -/
theorem c10_cleanup_removes_marker_witness :
    ModelDownloader.is_downloaded ⟨["models"]⟩ ⟨[], []⟩ "ltx-video-full" = false ∧
    ModelDownloader.cleanup ⟨["models"]⟩ ⟨[], []⟩ "no-such-model" = (⟨[], []⟩, false) ∧
    ModelDownloader.cleanup ⟨["models"]⟩ ⟨[], []⟩ "ltx-video-full" = (⟨[], []⟩, false) := by
  have h := c10_cleanup_removes_marker ⟨["models"]⟩
    ⟨[[["models", "video", "ltx-video-full"]].head!],
     [(["models", "video", "ltx-video-full", ".download_complete"], "Lightricks/LTX-Video")]⟩
    "ltx-video-full"
  refine ⟨(h.1 ⟨[], []⟩ (by decide)).1, ?_, ?_⟩
  · exact (c10_cleanup_removes_marker ⟨["models"]⟩ ⟨[], []⟩ "no-such-model").2.1 (by decide)
  · exact (c10_cleanup_removes_marker ⟨["models"]⟩ ⟨[], []⟩ "ltx-video-full").2.2
      { id := "ltx-video-full", name := "LTX-Video 13B"
      , repo_id := "Lightricks/LTX-Video", type := "video"
      , size_gb := 26, description := "Full quality video generation model"
      , required_vram_gb := 16 } (by decide) (by decide)

/-- C2 counterexample: for an image request with `num_images = 2` the
backend returns both output paths, but the coordinator stores only
`result[0]` — the job's result field holds `"o_0.png"` alone and the
second returned path `"o_1.png"` is not recorded. -/
theorem c2_counterexample :
    (FluxWrapper.generate_image ⟨"schnell", "black-forest-labs/FLUX.1-schnell"⟩
       { prompt := "p", output_path := some "o.png", num_images := 2 }).2
      = some (.inr ["o_0.png", "o_1.png"]) ∧
    finishJob (.ok (.inr ["o_0.png", "o_1.png"]))
      = { status := .completed, result := some "o_0.png", error := none } ∧
    (finishJob (.ok (.inr ["o_0.png", "o_1.png"]))).result ≠ some "o_1.png" := by
  refine ⟨by decide, by decide, by decide⟩

/-- C2 (amended): on backend success the coordinator sets the status to
`completed` with no error and records the returned path — the single
path when the backend returns one (always the case for video and for
`num_images = 1`), and only the first of the returned paths when the
backend returns a list. -/
theorem c2_success_records_first_path :
    (∀ s : String, finishJob (.ok (.inl s))
      = { status := .completed, result := some s }) ∧
    (∀ (w : FluxWrapper) (cfg : ImageGenerationConfig) (out : String ⊕ List String),
      1 ≤ cfg.num_images → (w.generate_image cfg).2 = some out →
      (finishJob (.ok out)).status = .completed ∧
      (finishJob (.ok out)).result = some (cfg.outputPathFor 0) ∧
      (finishJob (.ok out)).error = none) := by
  refine ⟨fun s => rfl, fun w cfg out hN hout => ?_⟩
  have hsnd : (w.generate_image cfg).2
      = if cfg.num_images = 1 then
          (((List.range cfg.num_images).map cfg.outputPathFor).head?).map Sum.inl
        else some (Sum.inr ((List.range cfg.num_images).map cfg.outputPathFor)) := rfl
  rw [hsnd] at hout
  by_cases h1 : cfg.num_images = 1
  · rw [if_pos h1, h1] at hout
    have hr : (((List.range 1).map cfg.outputPathFor).head?).map
          (Sum.inl : String → String ⊕ List String)
        = some (Sum.inl (cfg.outputPathFor 0)) := rfl
    rw [hr] at hout
    injection hout with hout2
    subst hout2
    exact ⟨rfl, rfl, rfl⟩
  · rw [if_neg h1] at hout
    injection hout with hout2
    subst hout2
    obtain ⟨n, hn⟩ : ∃ n, cfg.num_images = n + 1 := ⟨cfg.num_images - 1, by omega⟩
    rw [hn, List.range_succ_eq_map]
    exact ⟨rfl, rfl, rfl⟩

/-- Witness for `c2_success_records_first_path`: a video-style single
path is recorded as-is; for a three-image job the recorded result is the
`i = 0` output path. -/
theorem c2_success_records_first_path_witness :
    finishJob (.ok (.inl "v.mp4")) = { status := .completed, result := some "v.mp4" } ∧
    (finishJob (.ok (.inr ["o_0.png", "o_1.png", "o_2.png"]))).result
      = some (ImageGenerationConfig.outputPathFor
          { prompt := "p", output_path := some "o.png", num_images := 3 } 0) := by
  refine ⟨c2_success_records_first_path.1 "v.mp4",
    (c2_success_records_first_path.2 ⟨"schnell", "s"⟩
      { prompt := "p", output_path := some "o.png", num_images := 3 }
      (.inr ["o_0.png", "o_1.png", "o_2.png"]) (by norm_num) (by decide)).2.1⟩

/-! ### Decimal strings and path distinctness (towards C7) -/

theorem digitChar_toNat_sub (k : Nat) (h : k < 10) : (Nat.digitChar k).toNat - 48 = k := by
  interval_cases k <;> decide

theorem decode_natDecimalDigitsGo (fuel : Nat) :
    ∀ n, n ≤ fuel → decodeDecimal (natDecimalDigitsGo fuel n) = n := by
  induction fuel with
  | zero =>
    intro n hn
    have hz : n = 0 := by omega
    subst hz
    decide
  | succ fuel ih =>
    intro n hn
    by_cases h : n < 10
    · simp only [natDecimalDigitsGo, if_pos h]
      show 0 * 10 + ((Nat.digitChar n).toNat - 48) = n
      rw [Nat.zero_mul, Nat.zero_add]
      exact digitChar_toNat_sub n h
    · simp only [natDecimalDigitsGo, if_neg h]
      unfold decodeDecimal
      rw [List.foldl_append]
      show decodeDecimal (natDecimalDigitsGo fuel (n / 10)) * 10
          + ((Nat.digitChar (n % 10)).toNat - 48) = n
      rw [ih (n / 10) (by omega), digitChar_toNat_sub (n % 10) (Nat.mod_lt n (by omega))]
      omega

theorem decode_natDecimalDigits (n : Nat) : decodeDecimal (natDecimalDigits n) = n :=
  decode_natDecimalDigitsGo n n le_rfl

theorem natDecimalDigits_injective : Function.Injective natDecimalDigits := by
  intro a b h
  have ha := decode_natDecimalDigits a
  rw [h, decode_natDecimalDigits] at ha
  exact ha.symm

/-- For a fixed prefix, infix and suffix, the saved image paths are
injective in the output index. -/
theorem outputPathFor_inj (cfg : ImageGenerationConfig) (h : cfg.num_images ≠ 1) :
    Function.Injective cfg.outputPathFor := by
  intro i j hij
  unfold ImageGenerationConfig.outputPathFor at hij
  rw [if_neg h, if_neg h] at hij
  have hdata := congrArg String.data hij
  simp only [String.data_append] at hdata
  have h1 := List.append_cancel_right hdata
  have h2 := List.append_cancel_left h1
  exact natDecimalDigits_injective h2

theorem mk_append_mk (a b : List Char) : String.mk a ++ String.mk b = String.mk (a ++ b) :=
  rfl

/-- `splitext` splits its argument: root and extension rejoin to the
original path. -/
theorem splitext_append (p : String) : (splitext p).1 ++ (splitext p).2 = p := by
  cases hd : rfindIdx p.data '.' with
  | none =>
    have hred : splitext p = (p, "") := by
      unfold splitext
      rw [hd]
    rw [hred]
    exact String.append_empty p
  | some d =>
    have hred : splitext p
        = if splitextStart p ≤ d then
            if ((p.data.drop (splitextStart p)).take (d - splitextStart p)).any
                (fun c => c ≠ '.') then
              (String.mk (p.data.take d), String.mk (p.data.drop d))
            else (p, "")
          else (p, "") := by
      unfold splitext
      rw [hd]
    rw [hred]
    by_cases h1 : splitextStart p ≤ d
    · rw [if_pos h1]
      by_cases h2 : (((p.data.drop (splitextStart p)).take (d - splitextStart p)).any
          (fun c => c ≠ '.')) = true
      · rw [if_pos h2]
        show String.mk (p.data.take d) ++ String.mk (p.data.drop d) = p
        rw [mk_append_mk, List.take_append_drop]
      · rw [if_neg h2]
        exact String.append_empty p
    · rw [if_neg h1]
      exact String.append_empty p

/-- C7: with a configured output path, a `num_images = 1` generation
returns exactly that single path; a `num_images = N > 1` generation
returns an ordered list of `N` pairwise-distinct paths whose `i`-th
element is the base path's root with `_i` inserted before the (possibly
defaulted) extension, root and extension rejoining to the base path. -/
theorem c7_output_paths (w : FluxWrapper) (cfg : ImageGenerationConfig) (p : String)
    (hp : cfg.output_path = some p) (hne : p ≠ "") :
    (cfg.num_images = 1 → (w.generate_image cfg).2 = some (.inl p)) ∧
    (1 < cfg.num_images →
      ∃ paths : List String,
        (w.generate_image cfg).2 = some (.inr paths) ∧
        paths.length = cfg.num_images ∧
        (∀ i (hi : i < paths.length), paths.get ⟨i, hi⟩
          = (splitext p).1 ++ "_" ++ natStr i ++ extOrPng (splitext p).2) ∧
        (splitext p).1 ++ (splitext p).2 = p ∧
        paths.Nodup) := by
  constructor
  · intro h1
    simp [FluxWrapper.generate_image, h1, ImageGenerationConfig.outputPathFor,
      orElseStr, hp, hne]
    exact ⟨0, rfl⟩
  · intro hN
    have h1 : cfg.num_images ≠ 1 := by omega
    refine ⟨(List.range cfg.num_images).map cfg.outputPathFor, ?_, by simp, ?_, splitext_append p, ?_⟩
    · simp [FluxWrapper.generate_image, h1]
    · intro i hi
      have hlen : i < (List.range cfg.num_images).length := by simpa using hi
      rw [List.get_map]
      have hidx : (List.range cfg.num_images).get ⟨i, hlen⟩ = i := List.get_range _ _
      rw [hidx]
      unfold ImageGenerationConfig.outputPathFor
      rw [if_neg h1]
      rw [show orElseStr cfg.output_path ("output_" ++ seedStr cfg.seed) = p by
        simp [orElseStr, hp, hne]]
    · exact (List.nodup_range cfg.num_images).map (outputPathFor_inj cfg h1)

/-- Witness for `c7_output_paths`: for `o.png`, one image lands exactly
at `o.png`; three images land at three distinct derived paths. -/
theorem c7_output_paths_witness :
    (FluxWrapper.generate_image ⟨"schnell", "s"⟩
       { prompt := "p", output_path := some "o.png", num_images := 1 }).2
      = some (.inl "o.png") ∧
    ∃ paths : List String,
      (FluxWrapper.generate_image ⟨"schnell", "s"⟩
         { prompt := "p", output_path := some "o.png", num_images := 3 }).2
        = some (.inr paths) ∧ paths.length = 3 ∧ paths.Nodup := by
  have h1 := (c7_output_paths ⟨"schnell", "s"⟩
    { prompt := "p", output_path := some "o.png", num_images := 1 } "o.png" rfl
    (by decide)).1 rfl
  have h2 := (c7_output_paths ⟨"schnell", "s"⟩
    { prompt := "p", output_path := some "o.png", num_images := 3 } "o.png" rfl
    (by decide)).2 (by norm_num)
  obtain ⟨paths, hp1, hp2, -, -, hp5⟩ := h2
  exact ⟨h1, paths, hp1, hp2, hp5⟩

/-! ### Job-table lemmas (towards C1) -/

theorem lookupEntry_setEntry_eq (t : JobTable) (id : String) (e : Entry) :
    lookupEntry (setEntry t id e) id = (lookupEntry t id).map (fun _ => e) := by
  induction t with
  | nil => rfl
  | cons ph rest ih =>
    by_cases h : ph.1 = id
    · simp [setEntry, lookupEntry, h]
    · simp [setEntry, lookupEntry, h, ih]

theorem lookupEntry_setEntry_ne (t : JobTable) (id id' : String) (e : Entry)
    (h : id' ≠ id) : lookupEntry (setEntry t id e) id' = lookupEntry t id' := by
  induction t with
  | nil => rfl
  | cons ph rest ih =>
    by_cases hh : ph.1 = id
    · simp only [setEntry, if_pos hh, lookupEntry]
      rw [if_neg (fun hc => h hc.symm), if_neg (fun hc => h ((hh.symm.trans hc).symm))]
    · simp only [setEntry, if_neg hh, lookupEntry]
      by_cases hc : ph.1 = id'
      · rw [if_pos hc, if_pos hc]
      · rw [if_neg hc, if_neg hc]
        exact ih

theorem entryOk_job_of_scheduled {e : Entry} (ho : entryOk e) (hp : e.phase = .scheduled) :
    e.job = { status := .pending } := by
  unfold entryOk at ho
  rw [hp] at ho
  exact ho

theorem entryOk_job_of_running {e : Entry} (ho : entryOk e) (hp : e.phase = .running) :
    e.job = { status := .processing } := by
  unfold entryOk at ho
  rw [hp] at ho
  exact ho

/-- A finished work item stores exactly one terminal record: completed
with a result, or failed with an error. -/
theorem finishJob_terminal (o : Except String (String ⊕ List String)) :
    (∃ q, finishJob o = { status := .completed, result := some q }) ∨
    (∃ m, finishJob o = { status := .failed, error := some m }) := by
  rcases o with e | s
  · exact .inr ⟨e, rfl⟩
  · rcases s with s | l
    · exact .inl ⟨s, rfl⟩
    · rcases hl : l.head? with _ | q
      · exact .inr ⟨"list index out of range", by simp [finishJob, hl]⟩
      · exact .inl ⟨q, by simp [finishJob, hl]⟩

/-- Every server step preserves the job-shape invariant. -/
theorem step_tableOk {t t' : JobTable} (ht : tableOk t) (hs : Step t t') : tableOk t' := by
  cases hs with
  | submit id h =>
    intro id' e' he'
    rw [lookupEntry] at he'
    by_cases hc : id = id'
    · rw [if_pos hc] at he'
      injection he' with he2
      subst he2
      exact rfl
    · rw [if_neg hc] at he'
      exact ht id' e' he'
  | beginWork id e h hp =>
    intro id' e' he'
    by_cases hc : id' = id
    · subst hc
      rw [lookupEntry_setEntry_eq, h] at he'
      injection he' with he2
      subst he2
      have hj := entryOk_job_of_scheduled (ht id' e h) hp
      show ({ e.job with status := .processing } : Job) = { status := .processing }
      rw [hj]
    · rw [lookupEntry_setEntry_ne _ id id' _ hc] at he'
      exact ht id' e' he'
  | finishWork id e outcome h hp =>
    intro id' e' he'
    by_cases hc : id' = id
    · subst hc
      rw [lookupEntry_setEntry_eq, h] at he'
      injection he' with he2
      subst he2
      show (∃ p, finishJob outcome = { status := .completed, result := some p }) ∨
        (∃ m, finishJob outcome = { status := .failed, error := some m })
      exact finishJob_terminal outcome
    · rw [lookupEntry_setEntry_ne _ id id' _ hc] at he'
      exact ht id' e' he'

theorem reachable_tableOk {t : JobTable} (h : Reachable t) : tableOk t := by
  induction h with
  | init => intro id e he; exact Option.noConfusion he
  | step hr hs ih => exact step_tableOk ih hs

theorem steps_reachable {t t' : JobTable} (hr : Reachable t) (hs : Steps t t') :
    Reachable t' := by
  induction hs with
  | refl => exact hr
  | tail hst hstep ih => exact Reachable.step ih hstep

/-- A terminal entry has a finished work item. -/
theorem terminal_phase_done {t : JobTable} (ht : tableOk t) {id : String} {e : Entry}
    (h : lookupEntry t id = some e)
    (hterm : e.job.status = .completed ∨ e.job.status = .failed) : e.phase = .done := by
  have ho := ht id e h
  cases hph : e.phase
  · have hj := entryOk_job_of_scheduled ho hph
    rw [hj] at hterm
    rcases hterm with h' | h' <;> simp at h'
  · have hj := entryOk_job_of_running ho hph
    rw [hj] at hterm
    rcases hterm with h' | h' <;> simp at h'
  · rfl

/-- A single server step never modifies a terminal entry. -/
theorem terminal_step_fixed {t t' : JobTable} (ht : tableOk t) (hs : Step t t')
    {id : String} {e : Entry} (h : lookupEntry t id = some e)
    (hterm : e.job.status = .completed ∨ e.job.status = .failed) :
    lookupEntry t' id = some e := by
  have hdone : e.phase = .done := terminal_phase_done ht h hterm
  cases hs with
  | submit idn hn =>
    rw [lookupEntry]
    by_cases hc : idn = id
    · subst hc
      rw [hn] at h
      exact Option.noConfusion h
    · rw [if_neg hc]
      exact h
  | beginWork idn en hen hpn =>
    by_cases hc : id = idn
    · subst hc
      rw [h] at hen
      injection hen with he2
      subst he2
      rw [hdone] at hpn
      exact Phase.noConfusion hpn
    · rw [lookupEntry_setEntry_ne _ idn id _ hc]
      exact h
  | finishWork idn en outcome hen hpn =>
    by_cases hc : id = idn
    · subst hc
      rw [h] at hen
      injection hen with he2
      subst he2
      rw [hdone] at hpn
      exact Phase.noConfusion hpn
    · rw [lookupEntry_setEntry_ne _ idn id _ hc]
      exact h

theorem terminal_steps_fixed {t t' : JobTable} (hr : Reachable t) (hs : Steps t t')
    {id : String} {e : Entry} (h : lookupEntry t id = some e)
    (hterm : e.job.status = .completed ∨ e.job.status = .failed) :
    lookupEntry t' id = some e := by
  induction hs with
  | refl => exact h
  | tail hst hstep ih =>
    exact terminal_step_fixed (reachable_tableOk (steps_reachable hr hst)) hstep ih hterm

/-- The only status changes a step can make are pending→processing,
processing→completed and processing→failed. -/
theorem step_transition {t t' : JobTable} (ht : tableOk t) (hs : Step t t')
    {id : String} {e e' : Entry} (h : lookupEntry t id = some e)
    (h' : lookupEntry t' id = some e') (hne : e ≠ e') :
    allowedTransition e.job.status e'.job.status := by
  cases hs with
  | submit idn hn =>
    by_cases hc : idn = id
    · subst hc
      rw [hn] at h
      exact Option.noConfusion h
    · rw [lookupEntry, if_neg hc, h] at h'
      injection h' with h2
      exact absurd h2 hne
  | beginWork idn en hen hpn =>
    by_cases hc : id = idn
    · subst hc
      rw [h] at hen
      injection hen with h2
      subst h2
      rw [lookupEntry_setEntry_eq, h] at h'
      injection h' with h3
      subst h3
      have hj := entryOk_job_of_scheduled (ht _ _ h) hpn
      show allowedTransition e.job.status .processing
      rw [hj]
      exact trivial
    · rw [lookupEntry_setEntry_ne _ idn id _ hc, h] at h'
      injection h' with h2
      exact absurd h2 hne
  | finishWork idn en outcome hen hpn =>
    by_cases hc : id = idn
    · subst hc
      rw [h] at hen
      injection hen with h2
      subst h2
      rw [lookupEntry_setEntry_eq, h] at h'
      injection h' with h3
      subst h3
      have hj := entryOk_job_of_running (ht _ _ h) hpn
      show allowedTransition e.job.status (finishJob outcome).status
      rw [hj]
      rcases finishJob_terminal outcome with ⟨q, hq⟩ | ⟨m, hm⟩
      · rw [hq]
        exact trivial
      · rw [hm]
        exact trivial
    · rw [lookupEntry_setEntry_ne _ idn id _ hc, h] at h'
      injection h' with h2
      exact absurd h2 hne

/-- C1: in every reachable job table, (1) every entry's record matches
its work item's progress — in particular a scheduled (just-submitted)
job is exactly `pending` with no result and no error; (2) submission
of a fresh id is a step that inserts exactly that pending record;
(3) a step changes a job's entry only along pending→processing,
processing→completed or processing→failed; (4) once a job is completed
or failed, no sequence of further steps ever changes its entry; and
(5) a finished work item ends in exactly one terminal state — completed
with a result and no error, or failed with an error and no result. -/
theorem c1_job_lifecycle (t : JobTable) (ht : Reachable t) :
    tableOk t
    ∧ (∀ id, lookupEntry t id = none →
        Step t ((id, ⟨{ status := .pending }, .scheduled⟩) :: t) ∧
        lookupEntry ((id, ⟨{ status := .pending }, .scheduled⟩) :: t) id
          = some ⟨{ status := .pending, result := none, error := none }, .scheduled⟩)
    ∧ (∀ t' id e e', Step t t' → lookupEntry t id = some e → lookupEntry t' id = some e' →
        e ≠ e' → allowedTransition e.job.status e'.job.status)
    ∧ (∀ t' id e, Steps t t' → lookupEntry t id = some e →
        e.job.status = .completed ∨ e.job.status = .failed → lookupEntry t' id = some e)
    ∧ (∀ o, ((finishJob o).status = .completed ∧ (finishJob o).error = none
            ∧ (finishJob o).result ≠ none)
          ∨ ((finishJob o).status = .failed ∧ (finishJob o).result = none
            ∧ (finishJob o).error ≠ none)) := by
  refine ⟨reachable_tableOk ht,
    fun id h => ⟨Step.submit t id h, by rw [lookupEntry, if_pos rfl]⟩,
    fun t' id e e' hs h h' hne => step_transition (reachable_tableOk ht) hs h h' hne,
    fun t' id e hs h hterm => terminal_steps_fixed ht hs h hterm,
    fun o => ?_⟩
  rcases finishJob_terminal o with ⟨q, hq⟩ | ⟨m, hm⟩
  · left
    rw [hq]
    exact ⟨rfl, rfl, by simp⟩
  · right
    rw [hm]
    exact ⟨rfl, rfl, by simp⟩

/-- Witness for `c1_job_lifecycle`: run one job to completion through
submit, beginWork and finishWork, then submit a second job; the first
job's terminal entry is untouched. -/
theorem c1_job_lifecycle_witness :
    lookupEntry [("k", ⟨{ status := .pending }, .scheduled⟩),
        ("j", ⟨{ status := .completed, result := some "out.png" }, .done⟩)] "j"
      = some ⟨{ status := .completed, result := some "out.png" }, .done⟩ := by
  have hr3 : Reachable [("j", ⟨{ status := .completed, result := some "out.png" }, .done⟩)] :=
    Reachable.step (Reachable.step (Reachable.step Reachable.init
      (Step.submit [] "j" rfl))
      (Step.beginWork [("j", ⟨{ status := .pending }, .scheduled⟩)] "j"
        ⟨{ status := .pending }, .scheduled⟩ rfl rfl))
      (Step.finishWork [("j", ⟨{ status := .processing }, .running⟩)] "j"
        ⟨{ status := .processing }, .running⟩ (.ok (.inl "out.png")) rfl rfl)
  exact (c1_job_lifecycle _ hr3).2.2.2.1 _ "j"
    ⟨{ status := .completed, result := some "out.png" }, .done⟩
    (Steps.tail (Steps.refl _)
      (Step.submit [("j", ⟨{ status := .completed, result := some "out.png" }, .done⟩)]
        "k" rfl))
    rfl (Or.inl rfl)

end AMFbot
